import Mathlib

/-!
# Documize Community: link store and directory authentication

A shallow embedding of

* `domain/link/mysql/store.go`: the MySQL data access of wiki-links (`Scope`), and
* the directory (LDAP) integration exercised by `domain/auth/ldap/local_test.go`.

Go strings are Lean `String`s, `time.Time` is a `Nat` (an instant), Go `error` is
`Option GoError` with `none` for `nil`. The database connection, the transaction, the clock
and the identifier generator are passed explicitly.
-/

namespace Documize

/-! ## Go runtime pieces used by the store -/

/-- Go `error` values met in the store: an error raised by the database driver,
`sql.ErrNoRows`, and `errors.Wrap(cause, msg)` of `github.com/pkg/errors`. -/
inductive GoError where
  | driver (msg : String)
  | errNoRows
  | wrap (cause : GoError) (msg : String)
deriving DecidableEq, Repr

/-- The `errors.Wrap` function: annotates a non-nil error with a message; `Wrap(nil, msg)` is `nil`. -/
def errorsWrap (err : Option GoError) (msg : String) : Option GoError :=
  match err with
  | none => none
  | some e => some (GoError.wrap e msg)

/-- The white space of Go's `unicode.IsSpace`. -/
def isSpace (c : Char) : Bool :=
  c = '\t' || c = '\n' || c = '\x0b' || c = '\x0c' || c = '\r' || c = ' ' ||
  c.val = 0x85 || c.val = 0xA0 || c.val = 0x1680 ||
  (0x2000 ≤ c.val && c.val ≤ 0x200A) ||
  c.val = 0x2028 || c.val = 0x2029 || c.val = 0x202F || c.val = 0x205F || c.val = 0x3000

/-- The `strings.TrimSpace` function: removes leading and trailing white space. -/
def TrimSpace (s : String) : String :=
  String.mk ((s.data.dropWhile isSpace).reverse.dropWhile isSpace).reverse

/-- The `strings.ToLower` function on the ASCII letters `A`-`Z`; Go also lowers the letters
outside ASCII, on ASCII text the two agree. -/
def ToLower (s : String) : String :=
  String.mk (s.data.map Char.toLower)

/-- The clock behind `time.Now()`: reading number `n` yields `now n`. -/
structure Clock where
  now : Nat → Nat
  reads : Nat

/-- One call of `time.Now().UTC()`: the instant read, and the clock after the read. -/
def Clock.Now (c : Clock) : Nat × Clock :=
  (c.now c.reads, { c with reads := c.reads + 1 })

/-- The state behind `uniqueid.Generate()` (package `core/uniqueid`, a parameter here):
call number `n` yields `gen n`. -/
structure UniqueID where
  gen : Nat → String
  calls : Nat

/-- One call of `uniqueid.Generate()`. -/
def UniqueID.Generate (u : UniqueID) : String × UniqueID :=
  (u.gen u.calls, { u with calls := u.calls + 1 })

/-! ## Data model -/

/-- The `link.Link` record: the fields the store reads and writes. -/
structure Link where
  RefID : String
  OrgID : String
  SpaceID : String
  UserID : String
  SourceDocumentID : String
  SourceSectionID : String
  TargetDocumentID : String
  TargetID : String
  ExternalID : String
  LinkType : String
  Orphan : Bool
  Created : Nat
  Revised : Nat
deriving DecidableEq, Repr

/-- The `link.Candidate` record: the fields the store reads and writes. -/
structure Candidate where
  RefID : String
  LinkType : String
  Title : String
  Context : String
  SpaceID : String
  DocumentID : String
  TargetID : String
deriving DecidableEq, Repr

/-- The part of `domain.RequestContext` the store reads; the transaction is passed separately. -/
structure RequestContext where
  OrgID : String
  UserID : String
deriving DecidableEq, Repr

/-! ## The database as the store sees it -/

/-- A value bound to a `?` placeholder. -/
inductive SqlValue where
  | str (s : String)
  | bool (b : Bool)
  | time (t : Nat)
deriving DecidableEq, Repr

/-- What a call hands to the database driver: the statement text and the bound values. -/
structure Query where
  text : String
  args : List SqlValue
deriving DecidableEq, Repr

/-- The statement text of `Scope.Add`. -/
def insertLinkText : String :=
  "INSERT INTO dmz_doc_link (c_refid, c_orgid, c_spaceid, c_userid, c_sourcedocid, c_sourcesectionid, c_targetdocid, c_targetid, c_externalid, c_type, c_orphan, c_created, c_revised) VALUES (?, ?, ?, ?, ?, ?, ?, ?, ?, ?, ?, ?, ?)"

/-- The statement text of `Scope.GetDocumentOutboundLinks`. -/
def documentOutboundLinksText : String :=
  "\n\t\tselect c_refid AS refid, c_orgid AS orgid, c_spaceid AS spaceid, c_userid AS userid,\n        c_sourcedocid AS sourcedocumentid, c_sourcesectionid AS sourcesectionid,\n        c_targetdocid AS targetdocumentid, c_targetid AS targetid, c_externalid AS externalid,\n        c_type as linktype, c_orphan As orphan, c_created AS created, c_revised AS revised\n\t\tFROM dmz_doc_link\n\t\tWHERE c_orgid=? AND c_sourcedocid=?"

/-- The statement text of `Scope.GetPageLinks`. -/
def pageLinksText : String :=
  "\n        select c_refid AS refid, c_orgid AS orgid, c_spaceid AS spaceid, c_userid AS userid,\n        c_sourcedocid AS sourcedocumentid, c_sourcesectionid AS sourcesectionid,\n        c_targetdocid AS targetdocumentid, c_targetid AS targetid, c_externalid AS externalid,\n        c_type as linktype, c_orphan As orphan, c_created AS created, c_revised AS revised\n\t\tFROM dmz_doc_link\n\t\tWHERE c_orgid=? AND c_sourcedocid=? AND c_sourcesectionid=?"

/-- The statement text of `Scope.MarkOrphanDocumentLink`. -/
def markOrphanDocumentText : String :=
  "UPDATE dmz_doc_link SET\n        c_orphan=1, c_revised=?\n        WHERE c_type='document' AND c_orgid=? AND c_targetdocid=?"

/-- The statement text of `Scope.MarkOrphanPageLink`. -/
def markOrphanPageText : String :=
  "UPDATE dmz_doc_link SET\n        c_orphan=1, c_revised=?\n        WHERE c_type='section' AND c_orgid=? AND c_targetid=?"

/-- The statement text of `Scope.MarkOrphanAttachmentLink`. -/
def markOrphanAttachmentText : String :=
  "UPDATE dmz_doc_link SET\n        c_orphan=1, c_revised=?\n        WHERE c_type='file' AND c_orgid=? AND c_targetid=?"

/-- The rows of `dmz_doc_link` after `UPDATE dmz_doc_link SET c_orphan=1, c_revised=revised
WHERE cond`: the rows that satisfy `cond` are rewritten, the others stay, the order is kept. -/
def updateOrphan (cond : Link → Bool) (revised : Nat) (rows : List Link) : List Link :=
  rows.map (fun l => if cond l then { l with Orphan := true, Revised := revised } else l)

/-- The meaning of the statements `Scope` executes with bound values on the rows of
`dmz_doc_link`: the insert of `Add` appends the row, the three updates of `MarkOrphan*`
rewrite the rows of their WHERE clause (columns compared as exact strings); any other
statement leaves the rows as they are. -/
def applyStatement (q : Query) (rows : List Link) : List Link :=
  if q.text = insertLinkText then
    match q.args with
    | [.str refid, .str orgid, .str spaceid, .str userid, .str sourcedocid,
        .str sourcesectionid, .str targetdocid, .str targetid, .str externalid,
        .str type, .bool orphan, .time created, .time revised] =>
      rows ++ [{ RefID := refid, OrgID := orgid, SpaceID := spaceid, UserID := userid,
                 SourceDocumentID := sourcedocid, SourceSectionID := sourcesectionid,
                 TargetDocumentID := targetdocid, TargetID := targetid,
                 ExternalID := externalid, LinkType := type, Orphan := orphan,
                 Created := created, Revised := revised }]
    | _ => rows
  else if q.text = markOrphanDocumentText then
    match q.args with
    | [.time revised, .str orgid, .str docid] =>
      updateOrphan
        (fun l => l.LinkType = "document" && l.OrgID = orgid && l.TargetDocumentID = docid)
        revised rows
    | _ => rows
  else if q.text = markOrphanPageText then
    match q.args with
    | [.time revised, .str orgid, .str pageid] =>
      updateOrphan
        (fun l => l.LinkType = "section" && l.OrgID = orgid && l.TargetID = pageid)
        revised rows
    | _ => rows
  else if q.text = markOrphanAttachmentText then
    match q.args with
    | [.time revised, .str orgid, .str attachmentid] =>
      updateOrphan
        (fun l => l.LinkType = "file" && l.OrgID = orgid && l.TargetID = attachmentid)
        revised rows
    | _ => rows
  else rows

/-- The transaction of a request (`ctx.Transaction`): the rows of `dmz_doc_link` it sees,
the statements handed to it so far (oldest first), and the server's verdict on a statement
(`none`: executed, `some e`: refused with `e`). -/
structure Transaction where
  links : List Link
  issued : List Query
  verdict : Query → Option GoError

/-- The `Exec` method of the transaction: hands the statement with its bound values to the
server; a refused statement changes no row. Returns the error and the transaction afterwards. -/
def Transaction.Exec (tx : Transaction) (text : String) (args : List SqlValue) :
    Option GoError × Transaction :=
  let q : Query := { text := text, args := args }
  match tx.verdict q with
  | some e => (some e, { tx with issued := tx.issued ++ [q] })
  | none => (none, { tx with links := applyStatement q tx.links, issued := tx.issued ++ [q] })

/-- The database handle of the runtime (`s.Runtime.Db`): `Select` hands a query to the server
and scans the rows it returns; the server is a parameter. -/
structure Db where
  SelectLinks : Query → List Link × Option GoError
  SelectCandidates : Query → List Candidate × Option GoError

/-- The `env.Runtime` record: the part the store uses. -/
structure Runtime where
  Db : Db

/-- The `Scope` record: provides data access to MySQL. -/
structure Scope where
  Runtime : Runtime

/-- The `mysql.BaseQuery` helper of package `domain/store/mysql` (a parameter here):
`DeleteWhere` hands a complete statement to the transaction and reports the rows affected;
`DeleteConstrained` deletes the row of a table with the given organisation and id. -/
structure BaseQuery where
  DeleteWhere : Transaction → String → (Int × Option GoError) × Transaction
  DeleteConstrained : Transaction → String → String → String → (Int × Option GoError) × Transaction

/-! ## The operations of `Scope` -/

/-- The bound values of the insert of `Add`, in column order. -/
def insertLinkArgs (l : Link) : List SqlValue :=
  [.str l.RefID, .str l.OrgID, .str l.SpaceID, .str l.UserID, .str l.SourceDocumentID,
   .str l.SourceSectionID, .str l.TargetDocumentID, .str l.TargetID, .str l.ExternalID,
   .str l.LinkType, .bool l.Orphan, .time l.Created, .time l.Revised]

/-- The `Scope.Add` method: inserts wiki-link into the store. -/
def Scope.Add (_s : Scope) (clock : Clock) (tx : Transaction) (_ctx : RequestContext)
    (l : Link) : Option GoError × Transaction × Clock :=
  let (created, clock) := clock.Now
  let l := { l with Created := created }
  let (revised, clock) := clock.Now
  let l := { l with Revised := revised }
  let (err, tx) := tx.Exec insertLinkText (insertLinkArgs l)
  match err with
  | some e => (errorsWrap (some e) "execute link insert", tx, clock)
  | none => (none, tx, clock)

/-- The query of `GetDocumentOutboundLinks`. -/
def documentOutboundLinksQuery (ctx : RequestContext) (documentID : String) : Query :=
  { text := documentOutboundLinksText, args := [.str ctx.OrgID, .str documentID] }

/-- The `Scope.GetDocumentOutboundLinks` method: returns outbound links for specified document. -/
def Scope.GetDocumentOutboundLinks (s : Scope) (ctx : RequestContext) (documentID : String) :
    List Link × Option GoError :=
  let (links, err) := s.Runtime.Db.SelectLinks (documentOutboundLinksQuery ctx documentID)
  if err ≠ none ∧ err ≠ some GoError.errNoRows then
    (links, errorsWrap err "select document oubound links")
  else
    (links, err)

/-- The query of `GetPageLinks`. -/
def pageLinksQuery (ctx : RequestContext) (documentID pageID : String) : Query :=
  { text := pageLinksText, args := [.str ctx.OrgID, .str documentID, .str pageID] }

/-- The `Scope.GetPageLinks` method: returns outbound links for specified page in document. -/
def Scope.GetPageLinks (s : Scope) (ctx : RequestContext) (documentID pageID : String) :
    List Link × Option GoError :=
  let (links, err) := s.Runtime.Db.SelectLinks (pageLinksQuery ctx documentID pageID)
  if err ≠ none ∧ err ≠ some GoError.errNoRows then
    (links, errorsWrap err "get page links")
  else
    (links, err)

/-- The `Scope.MarkOrphanDocumentLink` method: marks all link records referencing specified
document. -/
def Scope.MarkOrphanDocumentLink (_s : Scope) (clock : Clock) (tx : Transaction)
    (ctx : RequestContext) (documentID : String) : Option GoError × Transaction × Clock :=
  let (revised, clock) := clock.Now
  let (err, tx) := tx.Exec markOrphanDocumentText [.time revised, .str ctx.OrgID, .str documentID]
  match err with
  | some e => (errorsWrap (some e) "mark link as orphan", tx, clock)
  | none => (none, tx, clock)

/-- The `Scope.MarkOrphanPageLink` method: marks all link records referencing specified page. -/
def Scope.MarkOrphanPageLink (_s : Scope) (clock : Clock) (tx : Transaction)
    (ctx : RequestContext) (pageID : String) : Option GoError × Transaction × Clock :=
  let (revised, clock) := clock.Now
  let (err, tx) := tx.Exec markOrphanPageText [.time revised, .str ctx.OrgID, .str pageID]
  match err with
  | some e => (errorsWrap (some e) "mark orphan page link", tx, clock)
  | none => (none, tx, clock)

/-- The `Scope.MarkOrphanAttachmentLink` method: marks all link records referencing specified
attachment. -/
def Scope.MarkOrphanAttachmentLink (_s : Scope) (clock : Clock) (tx : Transaction)
    (ctx : RequestContext) (attachmentID : String) : Option GoError × Transaction × Clock :=
  let (revised, clock) := clock.Now
  let (err, tx) :=
    tx.Exec markOrphanAttachmentText [.time revised, .str ctx.OrgID, .str attachmentID]
  match err with
  | some e => (errorsWrap (some e) "mark orphan attachment link", tx, clock)
  | none => (none, tx, clock)

/-- The statement of `DeleteSourcePageLinks`:
`fmt.Sprintf("DELETE FROM dmz_doc_link WHERE c_orgid=\"%s\" AND c_sourcesectionid=\"%s\"", ctx.OrgID, pageID)`. -/
def deleteSourcePageLinksStatement (ctx : RequestContext) (pageID : String) : String :=
  "DELETE FROM dmz_doc_link WHERE c_orgid=\"" ++ ctx.OrgID ++ "\" AND c_sourcesectionid=\"" ++
    pageID ++ "\""

/-- The `Scope.DeleteSourcePageLinks` method: removes saved links for given source. -/
def Scope.DeleteSourcePageLinks (_s : Scope) (b : BaseQuery) (tx : Transaction)
    (ctx : RequestContext) (pageID : String) : (Int × Option GoError) × Transaction :=
  b.DeleteWhere tx (deleteSourcePageLinksStatement ctx pageID)

/-- The statement of `DeleteSourceDocumentLinks`:
`fmt.Sprintf("DELETE FROM dmz_doc_link WHERE c_orgid=\"%s\" AND c_sourcedocid=\"%s\"", ctx.OrgID, documentID)`. -/
def deleteSourceDocumentLinksStatement (ctx : RequestContext) (documentID : String) : String :=
  "DELETE FROM dmz_doc_link WHERE c_orgid=\"" ++ ctx.OrgID ++ "\" AND c_sourcedocid=\"" ++
    documentID ++ "\""

/-- The `Scope.DeleteSourceDocumentLinks` method: removes saved links for given document. -/
def Scope.DeleteSourceDocumentLinks (_s : Scope) (b : BaseQuery) (tx : Transaction)
    (ctx : RequestContext) (documentID : String) : (Int × Option GoError) × Transaction :=
  b.DeleteWhere tx (deleteSourceDocumentLinksStatement ctx documentID)

/-- The `Scope.DeleteLink` method: removes saved link from the store. -/
def Scope.DeleteLink (_s : Scope) (b : BaseQuery) (tx : Transaction)
    (ctx : RequestContext) (id : String) : (Int × Option GoError) × Transaction :=
  b.DeleteConstrained tx "dmz_doc_link" ctx.OrgID id

/-- The bound values of each of the three search queries. -/
def searchArgs (ctx : RequestContext) : List SqlValue :=
  [.str ctx.OrgID, .str ctx.OrgID, .str ctx.OrgID, .str ctx.OrgID, .str ctx.UserID,
   .str ctx.OrgID, .str ctx.UserID]

/-- The first search query: matching documents. -/
def searchDocumentsQuery (ctx : RequestContext) (keywords : String) : Query :=
  let likeQuery := "LOWER(c_name) LIKE '%" ++ keywords ++ "%'"
  { text := "\n\t\tSELECT d.c_refid AS documentid, d.c_spaceid AS spaceid, d.c_name, l.c_name AS context\n        FROM dmz_doc d LEFT JOIN dmz_space l ON d.c_spaceid=l.c_refid\n        WHERE l.c_orgid=? AND " ++ likeQuery ++ " AND d.c_spaceid IN\n\t\t    (SELECT c_refid FROM dmz_space WHERE c_orgid=? AND c_refid IN\n                (SELECT c_refid FROM dmz_permission WHERE c_orgid=? AND c_location='space' AND c_refid IN\n                    (SELECT c_refid from dmz_permission WHERE c_orgid=? AND c_who='user' AND (c_whoid=? OR c_whoid='0') AND c_location='space' AND c_action='view'\n\t\t\t\t    UNION ALL\n                    SELECT p.c_refid from dmz_permission p LEFT JOIN dmz_group_member r ON p.c_whoid=r.c_groupid WHERE p.c_orgid=? AND p.c_who='role'\n                    AND p.c_location='space' AND p.c_action='view' AND (r.c_userid=? OR r.c_userid='0')\n                    )\n                )\n            )\n\t\tORDER BY title",
    args := searchArgs ctx }

/-- The second search query: matching sections. -/
def searchSectionsQuery (ctx : RequestContext) (keywords : String) : Query :=
  let likeQuery := "LOWER(p.c_name) LIKE '%" ++ keywords ++ "%'"
  { text := "\n        SELECT p.c_refid AS targetid, p.c_docid AS documentid, p.c_name AS title,\n        p.c_type AS linktype, d.c_name AS context, d.c_spaceid AS spaceid\n        FROM dmz_section p LEFT JOIN dmz_doc d ON d.c_refid=p.c_docid\n        WHERE p.c_orgid=? AND " ++ likeQuery ++ " AND d.c_spaceid IN\n\t\t    (SELECT c_refid FROM dmz_space WHERE c_orgid=? AND c_refid IN\n                (SELECT c_refid FROM dmz_permission WHERE c_orgid=? AND c_location='space' AND c_refid IN\n                    (SELECT c_refid from dmz_permission WHERE c_orgid=? AND c_who='user' AND (c_whoid=? OR c_whoid='0') AND c_location='space' AND c_action='view'\n                    UNION ALL\n                    SELECT p.c_refid from dmz_permission p LEFT JOIN dmz_group_member r ON p.c_whoid=r.c_groupid WHERE p.c_orgid=? AND p.c_who='role'\n                    AND p.c_location='space' AND p.c_action='view' AND (r.c_userid=? OR r.c_userid='0')\n                    )\n                )\n\t\t    )\n        ORDER BY p.c_name",
    args := searchArgs ctx }

/-- The third search query: matching attachments. -/
def searchAttachmentsQuery (ctx : RequestContext) (keywords : String) : Query :=
  let likeQuery := "LOWER(a.filename) LIKE '%" ++ keywords ++ "%'"
  { text := "\n        SELECT a.c_refid AS targetid, a.c_docid AS documentid, a.c_filename AS title, a.c_extension AS context, d.c_spaceiid AS spaceid\n        FROM dmz_doc_attachment a LEFT JOIN dmz_doc d ON d.c_refid=a.c_docid\n        WHERE a.c_orgid=? AND " ++ likeQuery ++ " AND d.c_spaceid IN\n            (SELECT c_refid FROM dmz_space WHERE c_orgid=? AND c_refid IN\n                (SELECT c_refid FROM dmz_permission WHERE c_orgid=? AND c_location='space' AND c_refid IN\n                    (SELECT c_refid from dmz_permission WHERE c_orgid=? AND c_who='user' AND (c_whoid=? OR c_whoid='0') AND c_location='space' AND c_action='view'\n                    UNION ALL\n                    SELECT p.c_refid from dmz_permission p LEFT JOIN dmz_group_member r ON p.c_whoid=r.c_groupid WHERE p.c_orgid=? AND p.c_who='role'\n                    AND p.c_location='space' AND p.c_action='view' AND (r.c_userid=? OR r.c_userid='0')\n                    )\n                )\n\t\t    )\n\t\tORDER BY a.c_filename",
    args := searchArgs ctx }

/-- The candidate built from a row of the documents query. -/
def documentCandidate (r : Candidate) (refID : String) : Candidate :=
  { RefID := refID, SpaceID := r.SpaceID, DocumentID := r.DocumentID,
    TargetID := r.DocumentID, LinkType := "document", Title := r.Title, Context := r.Context }

/-- The candidate built from a row of the sections query. -/
def sectionCandidate (r : Candidate) (refID : String) : Candidate :=
  { RefID := refID, SpaceID := r.SpaceID, DocumentID := r.DocumentID,
    TargetID := r.TargetID, LinkType := r.LinkType, Title := r.Title, Context := r.Context }

/-- The candidate built from a row of the attachments query. -/
def attachmentCandidate (r : Candidate) (refID : String) : Candidate :=
  { RefID := refID, SpaceID := r.SpaceID, DocumentID := r.DocumentID,
    TargetID := r.TargetID, LinkType := "file", Title := r.Title, Context := r.Context }

/-- The loop `for _, r := range temp { c := ...; out = append(out, c) }`: one candidate per
row, each with a freshly generated `RefID`. -/
def appendCandidates (mk : Candidate → String → Candidate) :
    List Candidate → List Candidate → UniqueID → List Candidate × UniqueID
  | [], out, u => (out, u)
  | r :: temp, out, u =>
    let (refID, u) := u.Generate
    appendCandidates mk temp (out ++ [mk r refID]) u

/-- The four results of `SearchCandidates`. -/
structure SearchResult where
  docs : List Candidate
  pages : List Candidate
  attachments : List Candidate
  err : Option GoError
deriving DecidableEq, Repr

/-- The `Scope.SearchCandidates` method: returns matching documents, sections and attachments
using keywords. The closing replacement of empty results by empty slices changes nothing
on lists. -/
def Scope.SearchCandidates (s : Scope) (u : UniqueID) (ctx : RequestContext)
    (keywords : String) : SearchResult × UniqueID :=
  let keywords := TrimSpace (ToLower keywords)
  -- find matching documents
  let (temp, err) := s.Runtime.Db.SelectCandidates (searchDocumentsQuery ctx keywords)
  match err with
  | some e =>
    ({ docs := [], pages := [], attachments := [],
       err := errorsWrap (some e) "execute search links 1" }, u)
  | none =>
  let (docs, u) := appendCandidates documentCandidate temp [] u
  -- find matching sections
  let (temp, err) := s.Runtime.Db.SelectCandidates (searchSectionsQuery ctx keywords)
  match err with
  | some e =>
    ({ docs := docs, pages := [], attachments := [],
       err := errorsWrap (some e) "execute search links 2" }, u)
  | none =>
  let (pages, u) := appendCandidates sectionCandidate temp [] u
  -- find matching attachments
  let (temp, err) := s.Runtime.Db.SelectCandidates (searchAttachmentsQuery ctx keywords)
  match err with
  | some e =>
    ({ docs := docs, pages := pages, attachments := [],
       err := errorsWrap (some e) "execute search links 3" }, u)
  | none =>
  let (attachments, u) := appendCandidates attachmentCandidate temp [] u
  ({ docs := docs, pages := pages, attachments := attachments, err := none }, u)

/-! ## Directory integration (package `domain/auth/ldap`)

Only the tests of this package are at hand (`local_test.go`): they fix the names and the
signatures of `connect`, `executeUserFilter`, `executeGroupFilter` and `authenticate`, the
fields of the configuration and of the returned entries. The bodies are modelled from the
specification of the directory-service integration layer. -/

/-- Modelled from the spec: the directory dialect of a configuration (`lm.ServerTypeLDAP`
and the others; package `model/auth` is missing from the sources). -/
inductive ServerType where
  | LDAP
  | dialect (name : String)
deriving DecidableEq, Repr

/-- Modelled from the spec: the encryption mode of a configuration: none, StartTLS, or
native TLS. -/
inductive EncryptionType where
  | None
  | StartTLS
  | TLS
deriving DecidableEq, Repr

/-- The `lm.LDAPConfig` record (package `model/auth`, missing from the sources), with the
fields `testConfigLocalLDAP` sets in `local_test.go`. -/
structure LDAPConfig where
  ServerType : ServerType
  ServerHost : String
  ServerPort : Nat
  EncryptionType : EncryptionType
  BaseDN : String
  BindDN : String
  BindPassword : String
  UserFilter : String
  GroupFilter : String
  AttributeUserRDN : String
  AttributeUserFirstname : String
  AttributeUserLastname : String
  AttributeUserEmail : String
  AttributeUserDisplayName : String
  AttributeUserGroupName : String
  AttributeGroupMember : String
deriving DecidableEq, Repr

/-- The normalized record of a directory object (its declaration is missing from the
sources), with the fields the tests of `local_test.go` read. -/
structure DirectoryEntry where
  RemoteID : String
  CN : String
  Firstname : String
  Lastname : String
  Email : String
deriving DecidableEq, Repr

/-- Modelled from the spec: the error taxonomy of the directory layer. -/
inductive LdapError where
  | ConnectionError
  | BindError
  | SearchError
deriving DecidableEq, Repr

/-- Modelled from the spec: an object held by the directory server (the server itself is
missing): its distinguished name, its attributes with their values, and the password a
simple bind as this object must present. -/
structure DirectoryObject where
  DN : String
  attributes : List (String × List String)
  password : String
deriving DecidableEq, Repr

/-- Modelled from the spec: the values of a named attribute of an object, none when absent. -/
def DirectoryObject.values (o : DirectoryObject) (name : String) : List String :=
  match o.attributes.find? (fun a => a.1 = name) with
  | some a => a.2
  | none => []

/-- Modelled from the spec: the first value of a named attribute; a missing attribute yields
the empty string, not a failure. -/
def DirectoryObject.value (o : DirectoryObject) (name : String) : String :=
  (o.values name).headD ""

/-- Modelled from the spec: the directory server a configuration designates (missing from
the sources). `reachable`: a transport to host and port can be opened; `startTLS`: the
server accepts the StartTLS upgrade; `tls`: it accepts native TLS; `filter`: the meaning the
server gives to a search filter, `none` for a filter it refuses; the distinguished name is
the unique identifier of an object. -/
structure Directory where
  reachable : Bool
  startTLS : Bool
  tls : Bool
  objects : List DirectoryObject
  filter : String → Option (DirectoryObject → Bool)
  unique : (objects.map (fun o => o.DN)).Nodup

/-- Modelled from the spec: `dn` lies in the subtree under `base`: it is `base` or ends in
`,base`. -/
def underBase (base dn : String) : Bool :=
  dn = base || ("," ++ base).data.isSuffixOf dn.data

/-- Modelled from the spec: a live session with the directory server (the LDAP client
library is missing): the server, the distinguished name the session is bound as (none
before the first bind), and whether it has been released. -/
structure Conn where
  server : Directory
  boundAs : Option String
  closed : Bool

/-- Modelled from the spec: releases the connection. -/
def Conn.Close (l : Conn) : Conn :=
  { l with closed := true }

/-- Modelled from the spec: a simple bind on a connection. A released connection is a
transport failure; the server accepts the bind when the object of that distinguished name
holds that password, and rejects it otherwise. -/
def Conn.Bind (l : Conn) (dn password : String) : Except LdapError Conn :=
  if l.closed then .error .ConnectionError
  else if l.server.objects.any (fun o => o.DN = dn && o.password = password) then
    .ok { l with boundAs := some dn }
  else .error .BindError

/-- Modelled from the spec: a subtree search under a base distinguished name with a filter.
A refused filter is a search error; zero matches is an empty result. -/
def Conn.Search (l : Conn) (base filter : String) : Except LdapError (List DirectoryObject) :=
  if l.closed then .error .ConnectionError
  else
    match l.server.filter filter with
    | none => .error .SearchError
    | some p => .ok (l.server.objects.filter (fun o => underBase base o.DN && p o))

/-- Modelled from the spec: the objects a login identifier resolves to: those under the
base distinguished name one of whose values of the attribute `name` is `value`. -/
def Directory.resolve (srv : Directory) (base name value : String) : List DirectoryObject :=
  srv.objects.filter (fun o => underBase base o.DN && (o.values name).contains value)

/-- Modelled from the spec: the lookup scoped to the login attribute, run on a connection. -/
def Conn.Lookup (l : Conn) (base name value : String) :
    Except LdapError (List DirectoryObject) :=
  if l.closed then .error .ConnectionError
  else .ok (l.server.resolve base name value)

/-- Modelled from the spec: the Directory Connector (`connect` is missing from the sources).
Dials with the transport of the encryption mode (a rejected StartTLS upgrade fails the
whole operation, with no fall back to plaintext), then binds as the service account, whose
distinguished name and password must be non-empty. -/
def connect (srv : Directory) (c : LDAPConfig) : Except LdapError Conn :=
  if !srv.reachable then .error .ConnectionError
  else
    let transport : Bool :=
      match c.EncryptionType with
      | .None => true
      | .StartTLS => srv.startTLS
      | .TLS => srv.tls
    if !transport then .error .ConnectionError
    else if c.BindDN = "" || c.BindPassword = "" then .error .BindError
    else Conn.Bind { server := srv, boundAs := none, closed := false } c.BindDN c.BindPassword

/-- Modelled from the spec: the directory-type defaults substituted for an empty filter
(the default filter strings are missing from the sources and stay a parameter). -/
structure FilterDefaults where
  user : ServerType → String
  group : ServerType → String

/-- Modelled from the spec: the attribute mapping of a user object: the remote identifier
is the full distinguished name; a missing attribute yields an empty field. -/
def userEntry (c : LDAPConfig) (o : DirectoryObject) : DirectoryEntry :=
  { RemoteID := o.DN, CN := o.value "cn",
    Firstname := o.value c.AttributeUserFirstname,
    Lastname := o.value c.AttributeUserLastname,
    Email := o.value c.AttributeUserEmail }

/-- Modelled from the spec: the attribute mapping of a group object: the remote identifier
is the full distinguished name. -/
def groupEntry (_c : LDAPConfig) (o : DirectoryObject) : DirectoryEntry :=
  { RemoteID := o.DN, CN := o.value "cn", Firstname := "", Lastname := "", Email := "" }

/-- Modelled from the spec: the Filter Executor for users (`executeUserFilter` is missing
from the sources): connects, searches the subtree under `BaseDN` with `UserFilter` (the
directory-type default when empty), releases the connection and maps the objects found. -/
def executeUserFilter (srv : Directory) (d : FilterDefaults) (c : LDAPConfig) :
    List DirectoryEntry × Option LdapError :=
  match connect srv c with
  | .error e => ([], some e)
  | .ok l =>
    let filter := if c.UserFilter = "" then d.user c.ServerType else c.UserFilter
    match l.Search c.BaseDN filter with
    | .error e => ([], some e)
    | .ok found => (found.map (userEntry c), none)

/-- Modelled from the spec: the Filter Executor for groups (`executeGroupFilter` is missing
from the sources): as for users, with `GroupFilter` and the group mapping. -/
def executeGroupFilter (srv : Directory) (d : FilterDefaults) (c : LDAPConfig) :
    List DirectoryEntry × Option LdapError :=
  match connect srv c with
  | .error e => ([], some e)
  | .ok l =>
    let filter := if c.GroupFilter = "" then d.group c.ServerType else c.GroupFilter
    match l.Search c.BaseDN filter with
    | .error e => ([], some e)
    | .ok found => (found.map (groupEntry c), none)

/-- Modelled from the spec: the connection after a credential check: bound again as the
service account, or released when that bind fails, so that it is never left bound as the
end user. -/
def rebindService (l : Conn) (c : LDAPConfig) : Conn :=
  match l.Bind c.BindDN c.BindPassword with
  | .ok l => l
  | .error _ => l.Close

/-- Modelled from the spec: the Credential Authenticator (`authenticate` is missing from
the sources). Resolves the login identifier to a distinguished name by a lookup on the
login attribute under `BaseDN`; zero or several matches fail closed; otherwise binds as
the resolved name with the password: a rejected bind is `(false, nil)`, an accepted one
`(true, nil)`, a transport failure an error. Returns the result and the connection
afterwards. -/
def authenticate (l : Conn) (c : LDAPConfig) (username pwd : String) :
    (Bool × Option LdapError) × Conn :=
  match l.Lookup c.BaseDN c.AttributeUserRDN username with
  | .error e => ((false, some e), l)
  | .ok [user] =>
    match l.Bind user.DN pwd with
    | .ok bound => ((true, none), rebindService bound c)
    | .error .BindError => ((false, none), l)
    | .error e => ((false, some e), l)
  | .ok _ => ((false, none), l)

/-! ## Concrete inputs -/

/-- A scope whose database answers every query with no rows and no error. -/
def emptyScope : Scope :=
  { Runtime := { Db := { SelectLinks := fun _ => ([], none),
                         SelectCandidates := fun _ => ([], none) } } }

/-- A clock that reads 100, 101, 102, ... -/
def clock100 : Clock :=
  { now := fun n => 100 + n, reads := 0 }

/-- The request context of user `u1` in organisation `org1`. -/
def ctxOrg1 : RequestContext :=
  { OrgID := "org1", UserID := "u1" }

/-- A link of organisation `org1` from a section of document `docA` to document `docB`. -/
def linkToDocB : Link :=
  { RefID := "l1", OrgID := "org1", SpaceID := "s1", UserID := "u1",
    SourceDocumentID := "docA", SourceSectionID := "secA", TargetDocumentID := "docB",
    TargetID := "docB", ExternalID := "", LinkType := "document", Orphan := false,
    Created := 7, Revised := 8 }

/-- A link of organisation `org1` to section `secB` of document `docB`. -/
def linkToSectionOfDocB : Link :=
  { linkToDocB with RefID := "l2", TargetID := "secB", LinkType := "section" }

/-- A link of another organisation, `org2`, to a document with the same id `docB`. -/
def linkOfOrg2ToDocB : Link :=
  { linkToDocB with RefID := "l3", OrgID := "org2" }

/-- A transaction over the three links above whose server accepts every statement. -/
def txThreeLinks : Transaction :=
  { links := [linkToDocB, linkToSectionOfDocB, linkOfOrg2ToDocB], issued := [],
    verdict := fun _ => none }

/-- A transaction over no links whose server refuses every statement. -/
def txRefusing : Transaction :=
  { links := [], issued := [], verdict := fun _ => some (GoError.driver "server has gone away") }

/-- A generator that yields `id0`, `id1`, `id2`, ... by call number. -/
def idsByCall : UniqueID :=
  { gen := fun n => "id" ++ toString n, calls := 0 }

/-- A row as the documents query scans it: no target id and no link type. -/
def rowDocument : Candidate :=
  { RefID := "", LinkType := "", Title := "Handbook", Context := "Staff",
    SpaceID := "s1", DocumentID := "d1", TargetID := "" }

/-- A row as the sections query scans it. -/
def rowSection : Candidate :=
  { RefID := "", LinkType := "wysiwyg", Title := "Holidays", Context := "Handbook",
    SpaceID := "s1", DocumentID := "d1", TargetID := "p9" }

/-- A row as the attachments query scans it. -/
def rowAttachment : Candidate :=
  { RefID := "", LinkType := "", Title := "form.pdf", Context := "pdf",
    SpaceID := "s1", DocumentID := "d1", TargetID := "a4" }

/-- A scope whose database answers the three search queries for the keyword `h` of
`ctxOrg1` with two document rows, one section row and one attachment row, and any other
query with no rows. -/
def searchScope : Scope :=
  { Runtime := { Db := {
      SelectLinks := fun _ => ([], none),
      SelectCandidates := fun q =>
        if q = searchDocumentsQuery ctxOrg1 "h" then
          ([rowDocument, { rowDocument with DocumentID := "d2", Title := "Health" }], none)
        else if q = searchSectionsQuery ctxOrg1 "h" then ([rowSection], none)
        else if q = searchAttachmentsQuery ctxOrg1 "h" then ([rowAttachment], none)
        else ([], none) } } }

/-- The configuration `testConfigLocalLDAP` of `local_test.go`. -/
def testConfigLocalLDAP : LDAPConfig :=
  { ServerType := ServerType.LDAP,
    ServerHost := "127.0.0.1",
    ServerPort := 389,
    EncryptionType := EncryptionType.StartTLS,
    BaseDN := "ou=people,dc=planetexpress,dc=com",
    BindDN := "cn=admin,dc=planetexpress,dc=com",
    BindPassword := "GoodNewsEveryone",
    UserFilter := "",
    GroupFilter := "",
    AttributeUserRDN := "uid",
    AttributeUserFirstname := "givenName",
    AttributeUserLastname := "sn",
    AttributeUserEmail := "mail",
    AttributeUserDisplayName := "",
    AttributeUserGroupName := "",
    AttributeGroupMember := "member" }

/-- Modelled from the spec: objects of the seeded test directory behind `local_test.go`:
the administrator, the users `professor` and `fry` (each with the login as password) and
the groups `admin_staff` and `ship_crew`. -/
def seededObjects : List DirectoryObject :=
  [ { DN := "cn=admin,dc=planetexpress,dc=com",
      attributes := [("cn", ["admin"]), ("objectClass", ["organizationalRole"])],
      password := "GoodNewsEveryone" },
    { DN := "cn=Hubert J. Farnsworth,ou=people,dc=planetexpress,dc=com",
      attributes := [("cn", ["Hubert J. Farnsworth"]), ("uid", ["professor"]),
                     ("givenName", ["Hubert"]), ("sn", ["Farnsworth"]),
                     ("mail", ["professor@planetexpress.com"]),
                     ("objectClass", ["inetOrgPerson", "person"])],
      password := "professor" },
    { DN := "cn=Philip J. Fry,ou=people,dc=planetexpress,dc=com",
      attributes := [("cn", ["Philip J. Fry"]), ("uid", ["fry"]),
                     ("givenName", ["Philip"]), ("sn", ["Fry"]),
                     ("mail", ["fry@planetexpress.com"]),
                     ("objectClass", ["inetOrgPerson", "person"])],
      password := "fry" },
    { DN := "cn=admin_staff,ou=people,dc=planetexpress,dc=com",
      attributes := [("cn", ["admin_staff"]), ("objectClass", ["group"]),
                     ("member", ["cn=Hubert J. Farnsworth,ou=people,dc=planetexpress,dc=com"])],
      password := "" },
    { DN := "cn=ship_crew,ou=people,dc=planetexpress,dc=com",
      attributes := [("cn", ["ship_crew"]), ("objectClass", ["group"]),
                     ("member", ["cn=Philip J. Fry,ou=people,dc=planetexpress,dc=com"])],
      password := "" } ]

/-- Modelled from the spec: the filters the seeded test directory is asked in this
development, with their meaning; any other filter is refused. -/
def seededFilter (f : String) : Option (DirectoryObject → Bool) :=
  if f = "(|(objectClass=person)(objectClass=user)(objectClass=inetOrgPerson))" then
    some (fun o => (o.values "objectClass").any
      (fun v => v = "person" || v = "user" || v = "inetOrgPerson"))
  else if f = "(&(objectClass=group)(|(cn=ship_crew)(cn=admin_staff)))" then
    some (fun o => (o.values "objectClass").contains "group" &&
      ((o.values "cn").contains "ship_crew" || (o.values "cn").contains "admin_staff"))
  else if f = "(objectClass=device)" then
    some (fun o => (o.values "objectClass").contains "device")
  else none

set_option maxRecDepth 100000 in
/-- Modelled from the spec: the seeded test directory, reachable and accepting StartTLS. -/
def seededDirectory : Directory :=
  { reachable := true, startTLS := true, tls := false,
    objects := seededObjects, filter := seededFilter, unique := by decide }

/-- The connection `connect` returns on the seeded test directory: bound as the service
account. -/
def seededConn : Conn :=
  { server := seededDirectory, boundAs := some "cn=admin,dc=planetexpress,dc=com",
    closed := false }

/-- No default filters: an empty filter stays empty. -/
def noDefaults : FilterDefaults :=
  { user := fun _ => "", group := fun _ => "" }

/-! ## Theorems: the link store -/

theorem Exec_of_accepted (tx : Transaction) (text : String) (args : List SqlValue)
    (h : tx.verdict { text := text, args := args } = none) :
    tx.Exec text args =
      (none, { tx with links := applyStatement { text := text, args := args } tx.links,
                       issued := tx.issued ++ [{ text := text, args := args }] }) := by
  simp [Transaction.Exec, h]

theorem Exec_of_refused (tx : Transaction) (text : String) (args : List SqlValue)
    (e : GoError) (h : tx.verdict { text := text, args := args } = some e) :
    tx.Exec text args =
      (some e, { tx with issued := tx.issued ++ [{ text := text, args := args }] }) := by
  simp [Transaction.Exec, h]

/-- C7: `Add` hands exactly one statement to the transaction, the insert into
`dmz_doc_link`, whose thirteen bound values are the link's RefID, OrgID, SpaceID, UserID,
SourceDocumentID, SourceSectionID, TargetDocumentID, TargetID, ExternalID, LinkType and
Orphan unchanged, followed by Created and Revised, each replaced by a reading of the
clock whatever the caller supplied; it returns nil exactly when the insert is accepted,
and otherwise the insert's error wrapped with "execute link insert". -/
theorem Add_inserts_link (s : Scope) (clock : Clock) (tx : Transaction)
    (ctx : RequestContext) (l : Link) :
    let insert : Query :=
      { text := insertLinkText,
        args := [.str l.RefID, .str l.OrgID, .str l.SpaceID, .str l.UserID,
                 .str l.SourceDocumentID, .str l.SourceSectionID, .str l.TargetDocumentID,
                 .str l.TargetID, .str l.ExternalID, .str l.LinkType, .bool l.Orphan,
                 .time (clock.now clock.reads), .time (clock.now (clock.reads + 1))] }
    (s.Add clock tx ctx l).2.1.issued = tx.issued ++ [insert] ∧
    ((s.Add clock tx ctx l).1 = none ↔ tx.verdict insert = none) ∧
    (∀ e, tx.verdict insert = some e →
      (s.Add clock tx ctx l).1 = some (GoError.wrap e "execute link insert")) := by
  intro insert
  cases h : tx.verdict insert with
  | none =>
    have hx := Exec_of_accepted tx insert.text insert.args h
    simp only [insert] at hx
    simp [Scope.Add, Clock.Now, insertLinkArgs, hx]
  | some e =>
    have hx := Exec_of_refused tx insert.text insert.args e h
    simp only [insert] at hx
    simp [Scope.Add, Clock.Now, insertLinkArgs, hx, errorsWrap]

theorem Add_inserts_link_witness :
    ((emptyScope.Add clock100 txThreeLinks ctxOrg1 linkToDocB).2.1.issued =
      [{ text := insertLinkText,
         args := [.str "l1", .str "org1", .str "s1", .str "u1", .str "docA", .str "secA",
                  .str "docB", .str "docB", .str "", .str "document", .bool false,
                  .time 100, .time 101] }] ∧
     (emptyScope.Add clock100 txThreeLinks ctxOrg1 linkToDocB).1 = none) ∧
    (emptyScope.Add clock100 txRefusing ctxOrg1 linkToDocB).1 =
      some (GoError.wrap (GoError.driver "server has gone away") "execute link insert") :=
  ⟨⟨(Add_inserts_link emptyScope clock100 txThreeLinks ctxOrg1 linkToDocB).1,
    (Add_inserts_link emptyScope clock100 txThreeLinks ctxOrg1 linkToDocB).2.1.mpr rfl⟩,
   (Add_inserts_link emptyScope clock100 txRefusing ctxOrg1 linkToDocB).2.2 _ rfl⟩

theorem markOrphanDocumentText_ne_insert : markOrphanDocumentText ≠ insertLinkText := by
  decide

theorem applyStatement_markOrphanDocument (revised : Nat) (orgid docid : String)
    (rows : List Link) :
    applyStatement
        { text := markOrphanDocumentText, args := [.time revised, .str orgid, .str docid] } rows =
      updateOrphan
        (fun l => l.LinkType = "document" && l.OrgID = orgid && l.TargetDocumentID = docid)
        revised rows := by
  simp [applyStatement, markOrphanDocumentText_ne_insert]

theorem MarkOrphanDocumentLink_of_accepted (s : Scope) (clock : Clock) (tx : Transaction)
    (ctx : RequestContext) (documentID : String)
    (h : (s.MarkOrphanDocumentLink clock tx ctx documentID).1 = none) :
    (s.MarkOrphanDocumentLink clock tx ctx documentID).2.1.links =
      updateOrphan
        (fun l => l.LinkType = "document" && l.OrgID = ctx.OrgID &&
          l.TargetDocumentID = documentID)
        (clock.now clock.reads) tx.links := by
  rcases hv : tx.verdict (Query.mk markOrphanDocumentText
      [.time (clock.now clock.reads), .str ctx.OrgID, .str documentID]) with _ | e
  · have hx := Exec_of_accepted tx _ _ hv
    simp [Scope.MarkOrphanDocumentLink, Clock.Now, hx, applyStatement_markOrphanDocument]
  · have hx := Exec_of_refused tx _ _ e hv
    simp [Scope.MarkOrphanDocumentLink, Clock.Now, hx, errorsWrap] at h

/-- C5, as stated, fails: on a table holding a link of type "section" of the same
organisation and a link of type "document" of another organisation, both with target
document `docB`, `MarkOrphanDocumentLink(ctx, "docB")` succeeds and leaves both records
with their orphan flag unset. -/
theorem MarkOrphanDocumentLink_leaves_other_links :
    (emptyScope.MarkOrphanDocumentLink clock100 txThreeLinks ctxOrg1 "docB").1 = none ∧
    (∃ l ∈ (emptyScope.MarkOrphanDocumentLink clock100 txThreeLinks ctxOrg1 "docB").2.1.links,
      l.LinkType = "section" ∧ l.TargetDocumentID = "docB" ∧ l.Orphan = false) ∧
    (∃ l ∈ (emptyScope.MarkOrphanDocumentLink clock100 txThreeLinks ctxOrg1 "docB").2.1.links,
      l.OrgID = "org2" ∧ l.TargetDocumentID = "docB" ∧ l.Orphan = false) := by
  have h : (emptyScope.MarkOrphanDocumentLink clock100 txThreeLinks ctxOrg1 "docB").1 = none := by
    simp [Scope.MarkOrphanDocumentLink, Clock.Now, Transaction.Exec, txThreeLinks]
  refine ⟨h, ⟨linkToSectionOfDocB, ?_, rfl, rfl, rfl⟩, ⟨linkOfOrg2ToDocB, ?_, rfl, rfl, rfl⟩⟩
  · rw [MarkOrphanDocumentLink_of_accepted _ _ _ _ _ h]
    simp [updateOrphan, txThreeLinks, linkToSectionOfDocB, linkToDocB, linkOfOrg2ToDocB]
  · rw [MarkOrphanDocumentLink_of_accepted _ _ _ _ _ h]
    simp [updateOrphan, txThreeLinks, linkToSectionOfDocB, linkToDocB, linkOfOrg2ToDocB,
      ctxOrg1]

/-- C5, amended: after a successful `MarkOrphanDocumentLink(ctx, documentID)` every link
record of type "document" of the organisation of the request whose target document id
equals `documentID` has its orphan flag set. -/
theorem MarkOrphanDocumentLink_marks_document_links (s : Scope) (clock : Clock)
    (tx : Transaction) (ctx : RequestContext) (documentID : String)
    (h : (s.MarkOrphanDocumentLink clock tx ctx documentID).1 = none) :
    ∀ l ∈ (s.MarkOrphanDocumentLink clock tx ctx documentID).2.1.links,
      l.LinkType = "document" → l.OrgID = ctx.OrgID → l.TargetDocumentID = documentID →
        l.Orphan = true := by
  rw [MarkOrphanDocumentLink_of_accepted s clock tx ctx documentID h]
  intro l hl ht ho hd
  simp only [updateOrphan, List.mem_map] at hl
  obtain ⟨l0, _, rfl⟩ := hl
  by_cases hc : (l0.LinkType = "document" && l0.OrgID = ctx.OrgID &&
      l0.TargetDocumentID = documentID) = true
  · simp [hc]
  · rw [if_neg hc] at ht ho hd
    simp [ht, ho, hd] at hc

theorem MarkOrphanDocumentLink_marks_document_links_witness :
    (emptyScope.MarkOrphanDocumentLink clock100 txThreeLinks ctxOrg1 "docB").1 = none ∧
    (∃ l ∈ (emptyScope.MarkOrphanDocumentLink clock100 txThreeLinks ctxOrg1 "docB").2.1.links,
      l.LinkType = "document" ∧ l.OrgID = ctxOrg1.OrgID ∧ l.TargetDocumentID = "docB") ∧
    ∀ l ∈ (emptyScope.MarkOrphanDocumentLink clock100 txThreeLinks ctxOrg1 "docB").2.1.links,
      l.LinkType = "document" → l.OrgID = ctxOrg1.OrgID → l.TargetDocumentID = "docB" →
        l.Orphan = true :=
  ⟨by simp [Scope.MarkOrphanDocumentLink, Clock.Now, Transaction.Exec, txThreeLinks],
   ⟨{ linkToDocB with Orphan := true, Revised := 100 }, by
      rw [MarkOrphanDocumentLink_of_accepted _ _ _ _ _
        (by simp [Scope.MarkOrphanDocumentLink, Clock.Now, Transaction.Exec, txThreeLinks])]
      simp [updateOrphan, txThreeLinks, linkToDocB, ctxOrg1, clock100],
     rfl, rfl, rfl⟩,
   MarkOrphanDocumentLink_marks_document_links emptyScope clock100 txThreeLinks ctxOrg1 "docB"
     (by simp [Scope.MarkOrphanDocumentLink, Clock.Now, Transaction.Exec, txThreeLinks])⟩

theorem appendCandidates_rows (mk : Candidate → String → Candidate)
    (R : Candidate → Candidate → Prop) (hmk : ∀ r refID, R r (mk r refID)) :
    ∀ (temp out : List Candidate) (u : UniqueID),
      ∃ cs, (appendCandidates mk temp out u).1 = out ++ cs ∧ List.Forall₂ R temp cs
  | [], out, u => ⟨[], by simp [appendCandidates], List.Forall₂.nil⟩
  | r :: temp, out, u => by
    obtain ⟨cs, hcs, hR⟩ :=
      appendCandidates_rows mk R hmk temp (out ++ [mk r u.Generate.1]) u.Generate.2
    refine ⟨mk r u.Generate.1 :: cs, ?_, List.Forall₂.cons (hmk r _) hR⟩
    simp only [appendCandidates]
    rw [hcs]
    simp

theorem appendCandidates_from_nil (mk : Candidate → String → Candidate)
    (R : Candidate → Candidate → Prop) (hmk : ∀ r refID, R r (mk r refID))
    (temp : List Candidate) (u : UniqueID) :
    List.Forall₂ R temp (appendCandidates mk temp [] u).1 := by
  obtain ⟨cs, hcs, hR⟩ := appendCandidates_rows mk R hmk temp [] u
  rw [hcs]
  simpa using hR

/-- C6: when the three queries of `SearchCandidates` succeed, no error is returned and each
of the three lists has exactly one candidate per returned row, in row order, carrying the
row's SpaceID, DocumentID, Title and Context; every candidate of `docs` has LinkType
"document" and TargetID equal to its DocumentID, every candidate of `attachments` has
LinkType "file" and the row's TargetID, every candidate of `pages` keeps the row's own
TargetID and LinkType. -/
theorem SearchCandidates_mirrors_rows (s : Scope) (u : UniqueID) (ctx : RequestContext)
    (keywords : String) (rows1 rows2 rows3 : List Candidate)
    (h1 : s.Runtime.Db.SelectCandidates
      (searchDocumentsQuery ctx (TrimSpace (ToLower keywords))) = (rows1, none))
    (h2 : s.Runtime.Db.SelectCandidates
      (searchSectionsQuery ctx (TrimSpace (ToLower keywords))) = (rows2, none))
    (h3 : s.Runtime.Db.SelectCandidates
      (searchAttachmentsQuery ctx (TrimSpace (ToLower keywords))) = (rows3, none)) :
    (s.SearchCandidates u ctx keywords).1.err = none ∧
    List.Forall₂
      (fun r c => c.SpaceID = r.SpaceID ∧ c.DocumentID = r.DocumentID ∧ c.Title = r.Title ∧
        c.Context = r.Context ∧ c.LinkType = "document" ∧ c.TargetID = c.DocumentID)
      rows1 (s.SearchCandidates u ctx keywords).1.docs ∧
    List.Forall₂
      (fun r c => c.SpaceID = r.SpaceID ∧ c.DocumentID = r.DocumentID ∧ c.Title = r.Title ∧
        c.Context = r.Context ∧ c.LinkType = r.LinkType ∧ c.TargetID = r.TargetID)
      rows2 (s.SearchCandidates u ctx keywords).1.pages ∧
    List.Forall₂
      (fun r c => c.SpaceID = r.SpaceID ∧ c.DocumentID = r.DocumentID ∧ c.Title = r.Title ∧
        c.Context = r.Context ∧ c.LinkType = "file" ∧ c.TargetID = r.TargetID)
      rows3 (s.SearchCandidates u ctx keywords).1.attachments := by
  simp only [Scope.SearchCandidates, h1, h2, h3]
  refine ⟨trivial, ?_, ?_, ?_⟩
  · exact appendCandidates_from_nil _ _ (fun r refID => by simp [documentCandidate]) _ _
  · exact appendCandidates_from_nil _ _ (fun r refID => by simp [sectionCandidate]) _ _
  · exact appendCandidates_from_nil _ _ (fun r refID => by simp [attachmentCandidate]) _ _

set_option maxRecDepth 100000 in
theorem SearchCandidates_mirrors_rows_witness :
    (searchScope.SearchCandidates idsByCall ctxOrg1 " H ").1 =
      { docs := [{ RefID := "id0", LinkType := "document", Title := "Handbook",
                   Context := "Staff", SpaceID := "s1", DocumentID := "d1", TargetID := "d1" },
                 { RefID := "id1", LinkType := "document", Title := "Health",
                   Context := "Staff", SpaceID := "s1", DocumentID := "d2", TargetID := "d2" }],
        pages := [{ RefID := "id2", LinkType := "wysiwyg", Title := "Holidays",
                    Context := "Handbook", SpaceID := "s1", DocumentID := "d1",
                    TargetID := "p9" }],
        attachments := [{ RefID := "id3", LinkType := "file", Title := "form.pdf",
                          Context := "pdf", SpaceID := "s1", DocumentID := "d1",
                          TargetID := "a4" }],
        err := none } ∧
    ((searchScope.SearchCandidates idsByCall ctxOrg1 " H ").1.err = none ∧
    List.Forall₂
      (fun r c => c.SpaceID = r.SpaceID ∧ c.DocumentID = r.DocumentID ∧ c.Title = r.Title ∧
        c.Context = r.Context ∧ c.LinkType = "document" ∧ c.TargetID = c.DocumentID)
      [rowDocument, { rowDocument with DocumentID := "d2", Title := "Health" }]
      (searchScope.SearchCandidates idsByCall ctxOrg1 " H ").1.docs ∧
    List.Forall₂
      (fun r c => c.SpaceID = r.SpaceID ∧ c.DocumentID = r.DocumentID ∧ c.Title = r.Title ∧
        c.Context = r.Context ∧ c.LinkType = r.LinkType ∧ c.TargetID = r.TargetID)
      [rowSection] (searchScope.SearchCandidates idsByCall ctxOrg1 " H ").1.pages ∧
    List.Forall₂
      (fun r c => c.SpaceID = r.SpaceID ∧ c.DocumentID = r.DocumentID ∧ c.Title = r.Title ∧
        c.Context = r.Context ∧ c.LinkType = "file" ∧ c.TargetID = r.TargetID)
      [rowAttachment] (searchScope.SearchCandidates idsByCall ctxOrg1 " H ").1.attachments) :=
  ⟨by decide,
   SearchCandidates_mirrors_rows searchScope idsByCall ctxOrg1 " H " _ _ _
     (by decide) (by decide) (by decide)⟩

set_option maxRecDepth 100000 in
/-- C3, evaluated on the code: `DeleteSourcePageLinks` and `DeleteSourceDocumentLinks` hand to
`DeleteWhere` a statement whose text holds the organisation id and the page or document id,
so that a page id with a double quote rewrites the WHERE clause; the three queries of
`SearchCandidates` hold the keywords in their text and not among their bound values, so
that two calls differing only in the keywords hand different statement texts to the
database. -/
theorem Delete_and_Search_text_holds_values :
    (∀ (b : BaseQuery) (tx : Transaction),
      emptyScope.DeleteSourcePageLinks b tx ctxOrg1 "p1" =
        b.DeleteWhere tx
          "DELETE FROM dmz_doc_link WHERE c_orgid=\"org1\" AND c_sourcesectionid=\"p1\"") ∧
    (∀ (b : BaseQuery) (tx : Transaction),
      emptyScope.DeleteSourcePageLinks b tx ctxOrg1 "p2\" OR \"1\"=\"1" =
        b.DeleteWhere tx
          "DELETE FROM dmz_doc_link WHERE c_orgid=\"org1\" AND c_sourcesectionid=\"p2\" OR \"1\"=\"1\"") ∧
    (∀ (b : BaseQuery) (tx : Transaction),
      emptyScope.DeleteSourceDocumentLinks b tx ctxOrg1 "d1" =
        b.DeleteWhere tx
          "DELETE FROM dmz_doc_link WHERE c_orgid=\"org1\" AND c_sourcedocid=\"d1\"") ∧
    (searchDocumentsQuery ctxOrg1 (TrimSpace (ToLower "a"))).text ≠
      (searchDocumentsQuery ctxOrg1 (TrimSpace (ToLower "b"))).text ∧
    (searchSectionsQuery ctxOrg1 (TrimSpace (ToLower "a"))).text ≠
      (searchSectionsQuery ctxOrg1 (TrimSpace (ToLower "b"))).text ∧
    (searchAttachmentsQuery ctxOrg1 (TrimSpace (ToLower "a"))).text ≠
      (searchAttachmentsQuery ctxOrg1 (TrimSpace (ToLower "b"))).text ∧
    (searchDocumentsQuery ctxOrg1 (TrimSpace (ToLower "a"))).args =
      (searchDocumentsQuery ctxOrg1 (TrimSpace (ToLower "b"))).args := by
  refine ⟨fun b tx => ?_, fun b tx => ?_, fun b tx => ?_, ?_, ?_, ?_, rfl⟩
  · rfl
  · rfl
  · rfl
  · decide
  · decide
  · decide

/-! ## Theorems: the directory integration -/

theorem Bind_accepts_iff (l : Conn) (user : DirectoryObject) (pwd : String)
    (hmem : user ∈ l.server.objects) :
    l.server.objects.any (fun o => o.DN = user.DN && o.password = pwd) = true ↔
      user.password = pwd := by
  constructor
  · intro h
    simp only [List.any_eq_true, Bool.and_eq_true, decide_eq_true_eq] at h
    obtain ⟨o, ho, hdn, hp⟩ := h
    have := List.inj_on_of_nodup_map l.server.unique ho hmem hdn
    rw [← this]; exact hp
  · intro h
    simp only [List.any_eq_true, Bool.and_eq_true, decide_eq_true_eq]
    exact ⟨user, hmem, rfl, h⟩

theorem resolve_mem (srv : Directory) (base name value : String) (user : DirectoryObject)
    (h : srv.resolve base name value = [user]) : user ∈ srv.objects := by
  have : user ∈ srv.resolve base name value := by rw [h]; simp
  exact (List.mem_filter.mp this).1

/-- C1: on a live connection to the directory, when the login identifier resolves to
exactly one directory entry and the password is that entry's password, `authenticate`
returns `(true, nil)`. -/
theorem authenticate_correct_credential (l : Conn) (c : LDAPConfig) (login pwd : String)
    (user : DirectoryObject)
    (hlive : l.closed = false)
    (hone : l.server.resolve c.BaseDN c.AttributeUserRDN login = [user])
    (hpwd : user.password = pwd) :
    (authenticate l c login pwd).1 = (true, none) := by
  have hb := (Bind_accepts_iff l user pwd (resolve_mem _ _ _ _ _ hone)).mpr hpwd
  simp [authenticate, Conn.Lookup, Conn.Bind, hlive, hone, hb]

set_option maxRecDepth 100000 in
theorem authenticate_correct_credential_witness :
    connect seededDirectory testConfigLocalLDAP = .ok seededConn ∧
    (authenticate seededConn testConfigLocalLDAP "professor" "professor").1 = (true, none) :=
  ⟨by rfl,
   authenticate_correct_credential seededConn testConfigLocalLDAP "professor" "professor"
     { DN := "cn=Hubert J. Farnsworth,ou=people,dc=planetexpress,dc=com",
       attributes := [("cn", ["Hubert J. Farnsworth"]), ("uid", ["professor"]),
                      ("givenName", ["Hubert"]), ("sn", ["Farnsworth"]),
                      ("mail", ["professor@planetexpress.com"]),
                      ("objectClass", ["inetOrgPerson", "person"])],
       password := "professor" }
     (by rfl) (by decide) (by rfl)⟩

/-- C2: on a live connection to the directory, when the login identifier and the password
are not a valid credential (the login resolves to no directory entry, to several, or to
one entry whose password is another), `authenticate` returns `(false, nil)`: false
together with a nil error. -/
theorem authenticate_invalid_credential (l : Conn) (c : LDAPConfig) (login pwd : String)
    (hlive : l.closed = false)
    (hbad : ∀ user, l.server.resolve c.BaseDN c.AttributeUserRDN login = [user] →
      user.password ≠ pwd) :
    (authenticate l c login pwd).1 = (false, none) := by
  unfold authenticate
  simp only [Conn.Lookup, hlive]
  rcases hres : l.server.resolve c.BaseDN c.AttributeUserRDN login with _ | ⟨user, _ | ⟨o, rest⟩⟩
  · simp
  · have hne := hbad user hres
    have hb : l.server.objects.any (fun o => o.DN = user.DN && o.password = pwd) = false := by
      rw [Bool.eq_false_iff]
      intro h
      exact hne ((Bind_accepts_iff l user pwd (resolve_mem _ _ _ _ _ hres)).mp h)
    simp [Conn.Bind, hlive, hb]
  · simp

set_option maxRecDepth 100000 in
theorem authenticate_invalid_credential_witness :
    seededConn.server.resolve testConfigLocalLDAP.BaseDN testConfigLocalLDAP.AttributeUserRDN
      "junk" = [] ∧
    (authenticate seededConn testConfigLocalLDAP "junk" "junk").1 = (false, none) ∧
    (authenticate seededConn testConfigLocalLDAP "professor" "junk").1 = (false, none) :=
  ⟨by decide,
   authenticate_invalid_credential seededConn testConfigLocalLDAP "junk" "junk" (by rfl)
     (fun user h => by
       rw [show seededConn.server.resolve testConfigLocalLDAP.BaseDN
         testConfigLocalLDAP.AttributeUserRDN "junk" = [] by decide] at h
       simp at h),
   authenticate_invalid_credential seededConn testConfigLocalLDAP "professor" "junk" (by rfl)
     (fun user h => by
       rw [show seededConn.server.resolve testConfigLocalLDAP.BaseDN
         testConfigLocalLDAP.AttributeUserRDN "professor" =
           [{ DN := "cn=Hubert J. Farnsworth,ou=people,dc=planetexpress,dc=com",
              attributes := [("cn", ["Hubert J. Farnsworth"]), ("uid", ["professor"]),
                             ("givenName", ["Hubert"]), ("sn", ["Farnsworth"]),
                             ("mail", ["professor@planetexpress.com"]),
                             ("objectClass", ["inetOrgPerson", "person"])],
              password := "professor" }] by decide] at h
       simp only [List.cons.injEq, and_true] at h
       rw [← h]
       decide)⟩

theorem Bind_ok (l l2 : Conn) (dn password : String) (h : l.Bind dn password = .ok l2) :
    l2.server = l.server ∧ l2.closed = false := by
  unfold Conn.Bind at h
  split at h
  · cases h
  · rename_i hc
    split at h
    · cases h
      simpa using hc
    · cases h

theorem connect_ok (srv : Directory) (c : LDAPConfig) (l : Conn)
    (h : connect srv c = .ok l) : l.server = srv ∧ l.closed = false := by
  unfold connect at h
  dsimp only at h
  split_ifs at h
  exact Bind_ok _ _ _ _ h

theorem Search_zero_matches (srv : Directory) (c : LDAPConfig) (l : Conn) (filter : String)
    (p : DirectoryObject → Bool)
    (hconn : connect srv c = .ok l)
    (hfilter : srv.filter filter = some p)
    (hzero : ∀ o ∈ srv.objects, underBase c.BaseDN o.DN = true → p o = false) :
    l.Search c.BaseDN filter = .ok [] := by
  obtain ⟨hs, hc⟩ := connect_ok srv c l hconn
  unfold Conn.Search
  simp only [hs, hc, hfilter]
  simp only [Bool.false_eq_true, if_false]
  congr 1
  rw [List.filter_eq_nil_iff]
  intro o ho hp
  simp only [Bool.and_eq_true] at hp
  rw [hzero o ho hp.1] at hp
  exact absurd hp.2 (by simp)

/-- C4: for every configuration with which the connection to the directory is established,
when the user filter (the configured one, or the directory-type default when it is empty)
is accepted by the directory and matches zero entries under the base distinguished name,
`executeUserFilter` returns an empty sequence of entries and a nil error; and the same
holds of `executeGroupFilter` with the group filter. -/
theorem executeFilter_zero_matches (srv : Directory) (d : FilterDefaults) (c : LDAPConfig)
    (l : Conn) (hconn : connect srv c = .ok l) :
    (∀ p, srv.filter (if c.UserFilter = "" then d.user c.ServerType else c.UserFilter)
          = some p →
        (∀ o ∈ srv.objects, underBase c.BaseDN o.DN = true → p o = false) →
        executeUserFilter srv d c = ([], none)) ∧
    (∀ p, srv.filter (if c.GroupFilter = "" then d.group c.ServerType else c.GroupFilter)
          = some p →
        (∀ o ∈ srv.objects, underBase c.BaseDN o.DN = true → p o = false) →
        executeGroupFilter srv d c = ([], none)) := by
  constructor
  · intro p hfilter hzero
    have hs := Search_zero_matches srv c l _ p hconn hfilter hzero
    simp only [executeUserFilter, hconn, hs, List.map_nil]
  · intro p hfilter hzero
    have hs := Search_zero_matches srv c l _ p hconn hfilter hzero
    simp only [executeGroupFilter, hconn, hs, List.map_nil]

set_option maxRecDepth 100000 in
theorem executeFilter_zero_matches_witness :
    executeUserFilter seededDirectory noDefaults
        { testConfigLocalLDAP with UserFilter := "(objectClass=device)" } = ([], none) ∧
    executeGroupFilter seededDirectory noDefaults
        { testConfigLocalLDAP with GroupFilter := "(objectClass=device)" } = ([], none) :=
  ⟨(executeFilter_zero_matches seededDirectory noDefaults
      { testConfigLocalLDAP with UserFilter := "(objectClass=device)" } seededConn
      (by rfl)).1
      (fun o => (o.values "objectClass").contains "device") (by rfl) (by decide),
   (executeFilter_zero_matches seededDirectory noDefaults
      { testConfigLocalLDAP with GroupFilter := "(objectClass=device)" } seededConn
      (by rfl)).2
      (fun o => (o.values "objectClass").contains "device") (by rfl) (by decide)⟩

end Documize
